import Mathlib

/-!
Shallow embedding of the genre-browse module of a music-API client:
`parsers/genre.py` and `mixins/genre.py`.  JSON documents are modelled by
an inductive `Json` value type, and the Python dynamic operations the code
uses (dictionary `get`, `in` membership, `for` iteration, `len`, indexing,
truthiness, `str.join`) are modelled by functions returning `Except Unit`,
where `.error ()` marks the places where the Python interpreter would
raise (`TypeError` / `AttributeError` / `KeyError`).  The navigation
helper `nav` and its path constants come from a module that is not part of
the sources; they are modelled from the spec as a declarative path lookup
that returns an optional result (here: `Json.null`, which is also what
Python's `None` denotes).
-/

namespace YTGenre

/-- JSON values as handled by the Python parser.  Numbers are modelled as
integers; the parser never computes with them, it only passes them
around, so the carrier does not matter.  `Json.null` doubles as Python's
`None`, exactly as `json.loads` produces it. -/
inductive Json where
  | null : Json
  | bool : Bool → Json
  | num : Int → Json
  | str : String → Json
  | arr : List Json → Json
  | obj : List (String × Json) → Json

/-- First-match association lookup: Python dictionary access for the
string keys the parser uses (JSON object keys are unique, so first match
is the match). -/
def jlookup : List (String × Json) → String → Option Json
  | [], _ => none
  | (k, v) :: rest, key => if key = k then some v else jlookup rest key

/-- Python truthiness of a JSON value: `None`, `False`, `0`, `""`, `[]`
and `{}` are falsy, everything else truthy. -/
def Json.truthy : Json → Bool
  | .null => false
  | .bool b => b
  | .num n => decide (n ≠ 0)
  | .str s => decide (s ≠ "")
  | .arr l => !l.isEmpty
  | .obj kvs => !kvs.isEmpty

/-- Whether `pat` occurs as a contiguous run inside `l`: Python's
substring containment on the character lists. -/
def charsContain (pat : List Char) : List Char → Bool
  | [] => pat.isEmpty
  | c :: rest => pat.isPrefixOf (c :: rest) || charsContain pat rest

/-- Python `pat in s` for strings: substring containment. -/
def strContains (s pat : String) : Bool :=
  charsContain pat.data s.data

/-- Python `s.startswith(pre)`, on the character lists so that concrete
instances compute. -/
def strStarts (s pre : String) : Bool :=
  pre.data.isPrefixOf s.data

/-- Python `s.endswith(suf)`, on the character lists. -/
def strEnds (s suf : String) : Bool :=
  suf.data.isSuffixOf s.data

/-- Python `str.lower` on the ASCII range (the parser's heuristics only
ever compare ASCII strings). -/
def lowerChar (c : Char) : Char :=
  if 'A' ≤ c ∧ c ≤ 'Z' then Char.ofNat (c.toNat + 32) else c

/-- Python `s.lower()`. -/
def strLower (s : String) : String :=
  String.mk (s.data.map lowerChar)

/-- Python `key in container`.  For a dict it tests the keys, for a
string it is substring containment, for a list it is element equality
(a string needle can only equal string elements); on `None`, numbers and
booleans Python raises `TypeError`. -/
def pyContains (key : String) : Json → Except Unit Bool
  | .obj kvs => .ok (jlookup kvs key).isSome
  | .str s => .ok (strContains s key)
  | .arr l => .ok (l.any fun j => match j with | .str s => s == key | _ => false)
  | _ => .error ()

/-- Python `container.get(key, dflt)`: only dictionaries have `.get`;
anything else raises `AttributeError`. -/
def pyGet (j : Json) (key : String) (dflt : Json) : Except Unit Json :=
  match j with
  | .obj kvs => .ok ((jlookup kvs key).getD dflt)
  | _ => .error ()

/-- Python `container[key]` with a string key, used by the code only
right after a successful `key in container` test.  On a string or a list
Python raises `TypeError`, on other non-dicts `TypeError` as well. -/
def pyIndexStr (j : Json) (key : String) : Except Unit Json :=
  match j with
  | .obj kvs =>
    match jlookup kvs key with
    | some v => .ok v
    | none => .error ()
  | _ => .error ()

/-- Python `container[n]` with a numeric index: list indexing, string
indexing (yielding a one-character string), `KeyError` on a JSON object
(its keys are strings), `TypeError` otherwise. -/
def pyIndexNat (j : Json) (n : Nat) : Except Unit Json :=
  match j with
  | .arr l =>
    match l.get? n with
    | some v => .ok v
    | none => .error ()
  | .str s =>
    match s.data.get? n with
    | some c => .ok (Json.str (String.mk [c]))
    | none => .error ()
  | _ => .error ()

/-- Python `len(container)`. -/
def pyLen : Json → Except Unit Nat
  | .arr l => .ok l.length
  | .str s => .ok s.length
  | .obj kvs => .ok kvs.length
  | _ => .error ()

/-- Python `for x in container`: lists iterate their elements, dicts
their keys, strings their characters; iterating `None`, a number or a
boolean raises `TypeError`. -/
def pyIter : Json → Except Unit (List Json)
  | .arr l => .ok l
  | .obj kvs => .ok (kvs.map fun kv => Json.str kv.1)
  | .str s => .ok (s.data.map fun c => Json.str (String.mk [c]))
  | _ => .error ()

/-- Python `d.values()`: dictionaries only. -/
def pyValues : Json → Except Unit (List Json)
  | .obj kvs => .ok (kvs.map (·.2))
  | _ => .error ()

/-- Python `"".join(parts)`: every part must be a string. -/
def pyJoin : List Json → Except Unit String
  | [] => .ok ""
  | .str s :: rest =>
    match pyJoin rest with
    | .ok t => .ok (s ++ t)
    | .error e => .error e
  | _ => .error ()

/-- Python `a or b` as the parser uses it (`nav(...) or []`). -/
def pyOr (a b : Json) : Json :=
  if a.truthy then a else b

/-- The characters Python's `str.rstrip()` strips by default (the ASCII
whitespace subset; the parser only meets ASCII suffixes). -/
def pyIsSpace (c : Char) : Bool :=
  c = ' ' || c = '\t' || c = '\n' || c = '\r' || c = '\x0b' || c = '\x0c'

/-- Python `s.rstrip()`. -/
def rstrip (s : String) : String :=
  String.mk ((s.data.reverse.dropWhile pyIsSpace).reverse)

/-- One step of a navigation path: a dictionary key or a list index. -/
inductive PathElem where
  | key (s : String)
  | idx (n : Nat)

/-- Modelled from the spec: the `nav` helper of the missing navigation
module, "a small declarative path-lookup helper (sequence of
keys/indices, returns optional)".  Every call site in this parser passes
`none_if_absent=True`, so a failed lookup yields `Json.null` (Python
`None`) instead of raising. -/
def nav : Json → List PathElem → Json
  | j, [] => j
  | .obj kvs, .key s :: rest =>
    match jlookup kvs s with
    | some v => nav v rest
    | none => Json.null
  | .arr l, .idx n :: rest =>
    match l.get? n with
    | some v => nav v rest
    | none => Json.null
  | _, _ => Json.null

/-- Modelled from the spec: the `TITLE_TEXT` path constant of the missing
navigation module — the fixed path from a renderer to its title text run. -/
def TITLE_TEXT : List PathElem :=
  [.key "title", .key "runs", .idx 0, .key "text"]

/-- Modelled from the spec: the `THUMBNAIL_RENDERER` path constant of the
missing navigation module (a fixed path segment; no claim depends on its
exact keys). -/
def THUMBNAIL_RENDERER : List PathElem :=
  [.key "musicThumbnailRenderer"]

/-- Modelled from the spec: the `THUMBNAILS` path constant of the missing
navigation module (a fixed path segment; no claim depends on its exact
keys). -/
def THUMBNAILS : List PathElem :=
  [.key "thumbnail", .key "thumbnails"]

/-- The fixed path from the document root to the single-column tab's
section list (`parse_genre_contents`). -/
def SECTION_LIST_PATH : List PathElem :=
  [.key "contents", .key "singleColumnBrowseResultsRenderer", .key "tabs",
   .idx 0, .key "tabRenderer", .key "content", .key "sectionListRenderer",
   .key "contents"]

/-- An entity card (`parse_two_row_item` result). -/
structure Card where
  resultType : String
  title : Json
  subtitle : String
  browseId : Json
  thumbnails : Json

/-- One `{name, id}` artist entry of a parsed song. -/
structure ArtistRef where
  name : Json
  id : String

/-- The `{name, id}` album entry of a parsed song. -/
structure AlbumRef where
  name : Json
  id : String

/-- A parsed song (`parse_genre_song` result; `resultType` is the
constant `"song"` and is left implicit). -/
structure Song where
  title : Json
  videoId : Json
  artists : List ArtistRef
  album : Option AlbumRef
  views : Option String
  thumbnails : Json

/-- An item of a section: an entity card or a song. -/
inductive GItem where
  | card (c : Card)
  | song (s : Song)

/-- A parsed section. -/
structure GenreSection where
  title : Json
  type : String
  items : List GItem

/-- A parsed header: `musicHeaderRenderer` yields only a title,
`musicImmersiveHeaderRenderer` a title and a thumbnail list. -/
inductive GenreHeader where
  | basic (title : Json)
  | immersive (title : Json) (thumbnail : Json)

/-- The full result of `parse_genre_contents`. -/
structure GenrePage where
  header : Option GenreHeader
  songs : List GItem
  playlists : List GItem
  albums : List GItem
  artists : List GItem
  sections : List GenreSection

/-- `_get_type_from_browse_id`: falsy browse id (absent or empty) gives
`"playlist"`, prefix `"MPRE"` gives `"album"`, prefix `"UC"` gives
`"artist"`, anything else `"playlist"`.  A truthy non-string browse id
makes Python raise on `.startswith`. -/
def _get_type_from_browse_id (browse_id : Json) : Except Unit String :=
  if browse_id.truthy then
    match browse_id with
    | .str s =>
      .ok (if strStarts s "MPRE" then "album"
           else if strStarts s "UC" then "artist"
           else "playlist")
    | _ => .error ()
  else .ok "playlist"

/-- `_is_view_count`: the text contains `"view"` case-insensitively or
ends, after stripping trailing whitespace, with `"M"`, `"K"` or `"B"`. -/
def _is_view_count (text : String) : Bool :=
  strContains (strLower text) "view" ||
  strEnds (rstrip text) "M" ||
  strEnds (rstrip text) "K" ||
  strEnds (rstrip text) "B"

/-- The subtitle list comprehension of `parse_two_row_item`:
`[r.get("text", "") for r in subtitle_runs]`. -/
def runsTexts : List Json → Except Unit (List Json)
  | [] => .ok []
  | r :: rest =>
    match pyGet r "text" (Json.str "") with
    | .error e => .error e
    | .ok t =>
      match runsTexts rest with
      | .error e => .error e
      | .ok ts => .ok (t :: ts)

/-- `parse_two_row_item`: `none` when the selector key
`musicTwoRowItemRenderer` is absent, otherwise a card whose `resultType`
is derived from the browse id. -/
def parse_two_row_item (item : Json) : Except Unit (Option Card) :=
  match pyContains "musicTwoRowItemRenderer" item with
  | .error e => .error e
  | .ok false => .ok none
  | .ok true =>
  match pyIndexStr item "musicTwoRowItemRenderer" with
  | .error e => .error e
  | .ok renderer =>
  match pyIter (pyOr (nav renderer [.key "subtitle", .key "runs"]) (Json.arr [])) with
  | .error e => .error e
  | .ok subtitle_runs =>
  match runsTexts subtitle_runs with
  | .error e => .error e
  | .ok texts =>
  match pyJoin texts with
  | .error e => .error e
  | .ok subtitle =>
  match _get_type_from_browse_id
      (nav renderer [.key "navigationEndpoint", .key "browseEndpoint", .key "browseId"]) with
  | .error e => .error e
  | .ok result_type =>
    .ok (some
      { resultType := result_type
        title := nav renderer TITLE_TEXT
        subtitle := subtitle
        browseId := nav renderer [.key "navigationEndpoint", .key "browseEndpoint", .key "browseId"]
        thumbnails := nav renderer ([.key "thumbnailRenderer"] ++ THUMBNAIL_RENDERER ++ THUMBNAILS) })

/-- The song dictionary as initialised at the top of `parse_genre_song`
(all fields `None` / empty). -/
def emptySong : Song :=
  { title := Json.null, videoId := Json.null, artists := [], album := none,
    views := none, thumbnails := Json.null }

/-- The body of the second-column `for run in runs` loop of
`parse_genre_song`: a truthy browse id prefixed `"UC"` appends an artist,
else one prefixed `"MPREb"` overwrites the album; with a falsy browse id
the text is kept as the view count when `_is_view_count` accepts it
(overwriting any earlier value). -/
def scanRun (song : Song) (run : Json) : Except Unit Song :=
  match pyGet run "text" (Json.str "") with
  | .error e => .error e
  | .ok text =>
    let browse_id := nav run [.key "navigationEndpoint", .key "browseEndpoint", .key "browseId"]
    if browse_id.truthy then
      match browse_id with
      | .str b =>
        if strStarts b "UC" then
          .ok { song with artists := song.artists ++ [{ name := text, id := b }] }
        else if strStarts b "MPREb" then
          .ok { song with album := some { name := text, id := b } }
        else .ok song
      | _ => .error ()
    else
      match text with
      | .str t =>
        if _is_view_count t then .ok { song with views := some t } else .ok song
      | _ => .error ()

/-- The second-column loop of `parse_genre_song`, run by run. -/
def scanRuns : List Json → Song → Except Unit Song
  | [], song => .ok song
  | r :: rest, song =>
    match scanRun song r with
    | .error e => .error e
    | .ok s2 => scanRuns rest s2

/-- The `len(flex_columns) > 0` block of `parse_genre_song`: title and
watch-endpoint video id from the first text run of the first flexible
column. -/
def songCol1 (flexJ : Json) (song : Song) : Except Unit Song :=
  match pyIndexNat flexJ 0 with
  | .error e => .error e
  | .ok fc0 =>
  match pyGet fc0 "musicResponsiveListItemFlexColumnRenderer" (Json.obj []) with
  | .error e => .error e
  | .ok col =>
    let runsJ := pyOr (nav col [.key "text", .key "runs"]) (Json.arr [])
    if runsJ.truthy then
      match pyIndexNat runsJ 0 with
      | .error e => .error e
      | .ok r0 =>
        match pyGet r0 "text" Json.null with
        | .error e => .error e
        | .ok t =>
          .ok { song with
                title := t
                videoId := nav r0 [.key "navigationEndpoint", .key "watchEndpoint", .key "videoId"] }
    else .ok song

/-- The `len(flex_columns) > 1` block of `parse_genre_song`: scan the
second flexible column's runs. -/
def songCol2 (flexJ : Json) (song : Song) : Except Unit Song :=
  match pyIndexNat flexJ 1 with
  | .error e => .error e
  | .ok fc1 =>
  match pyGet fc1 "musicResponsiveListItemFlexColumnRenderer" (Json.obj []) with
  | .error e => .error e
  | .ok col =>
    match pyIter (pyOr (nav col [.key "text", .key "runs"]) (Json.arr [])) with
    | .error e => .error e
    | .ok runs => scanRuns runs song

/-- `parse_genre_song`: `none` when the selector key
`musicResponsiveListItemRenderer` is absent. -/
def parse_genre_song (item : Json) : Except Unit (Option Song) :=
  match pyContains "musicResponsiveListItemRenderer" item with
  | .error e => .error e
  | .ok false => .ok none
  | .ok true =>
  match pyIndexStr item "musicResponsiveListItemRenderer" with
  | .error e => .error e
  | .ok renderer =>
  match pyGet renderer "flexColumns" (Json.arr []) with
  | .error e => .error e
  | .ok flexJ =>
  match pyLen flexJ with
  | .error e => .error e
  | .ok n =>
  match (if 0 < n then songCol1 flexJ emptySong else .ok emptySong) with
  | .error e => .error e
  | .ok s1 =>
  match (if 1 < n then songCol2 flexJ s1 else .ok s1) with
  | .error e => .error e
  | .ok s2 =>
    .ok (some { s2 with
                thumbnails := nav renderer ([.key "thumbnail"] ++ THUMBNAIL_RENDERER ++ THUMBNAILS) })

/-- The `for item in shelf.get("contents", [])` loop of
`parse_carousel_shelf`: accumulate parsed cards and infer the section
type from the first successfully parsed item (the type is updated only
while it is still `"unknown"`). -/
def carouselFold : List Json → List GItem → String → Except Unit (List GItem × String)
  | [], items, ty => .ok (items, ty)
  | item :: rest, items, ty =>
    match parse_two_row_item item with
    | .error e => .error e
    | .ok none => carouselFold rest items ty
    | .ok (some c) =>
      carouselFold rest (items ++ [GItem.card c])
        (if ty = "unknown" then c.resultType ++ "s" else ty)

/-- `parse_carousel_shelf`. -/
def parse_carousel_shelf (shelf : Json) : Except Unit GenreSection :=
  let title := nav shelf ([.key "header", .key "musicCarouselShelfBasicHeaderRenderer"] ++ TITLE_TEXT)
  match pyGet shelf "contents" (Json.arr []) with
  | .error e => .error e
  | .ok contentsJ =>
  match pyIter contentsJ with
  | .error e => .error e
  | .ok contents =>
  match carouselFold contents [] "unknown" with
  | .error e => .error e
  | .ok (items, ty) => .ok { title := title, type := ty, items := items }

/-- The `for item in shelf.get("contents", [])` loop of
`parse_music_shelf`. -/
def shelfItemsFold : List Json → List GItem → Except Unit (List GItem)
  | [], items => .ok items
  | item :: rest, items =>
    match parse_genre_song item with
    | .error e => .error e
    | .ok none => shelfItemsFold rest items
    | .ok (some s) => shelfItemsFold rest (items ++ [GItem.song s])

/-- `parse_music_shelf`: a vertical song list, always typed `"songs"`. -/
def parse_music_shelf (shelf : Json) : Except Unit GenreSection :=
  let title := nav shelf TITLE_TEXT
  match pyGet shelf "contents" (Json.arr []) with
  | .error e => .error e
  | .ok contentsJ =>
  match pyIter contentsJ with
  | .error e => .error e
  | .ok contents =>
  match shelfItemsFold contents [] with
  | .error e => .error e
  | .ok items => .ok { title := title, type := "songs", items := items }

/-- The `for item in grid.get("items", [])` loop of
`parse_grid_renderer`. -/
def gridItemsFold : List Json → List GItem → Except Unit (List GItem)
  | [], items => .ok items
  | item :: rest, items =>
    match parse_two_row_item item with
    | .error e => .error e
    | .ok none => gridItemsFold rest items
    | .ok (some c) => gridItemsFold rest (items ++ [GItem.card c])

/-- `parse_grid_renderer`: a grid of entity cards, always typed
`"playlists"`. -/
def parse_grid_renderer (grid : Json) : Except Unit GenreSection :=
  let title := nav grid ([.key "header", .key "gridHeaderRenderer"] ++ TITLE_TEXT)
  match pyGet grid "items" (Json.arr []) with
  | .error e => .error e
  | .ok itemsJ =>
  match pyIter itemsJ with
  | .error e => .error e
  | .ok items =>
  match gridItemsFold items [] with
  | .error e => .error e
  | .ok parsed => .ok { title := title, type := "playlists", items := parsed }

/-- `parse_genre_section`: dispatch on which renderer key is present, in
source order carousel, shelf, grid; `none` when none of the three keys is
present. -/
def parse_genre_section (sect : Json) : Except Unit (Option GenreSection) :=
  match pyContains "musicCarouselShelfRenderer" sect with
  | .error e => .error e
  | .ok true =>
    match pyIndexStr sect "musicCarouselShelfRenderer" with
    | .error e => .error e
    | .ok r =>
      match parse_carousel_shelf r with
      | .error e => .error e
      | .ok sec => .ok (some sec)
  | .ok false =>
  match pyContains "musicShelfRenderer" sect with
  | .error e => .error e
  | .ok true =>
    match pyIndexStr sect "musicShelfRenderer" with
    | .error e => .error e
    | .ok r =>
      match parse_music_shelf r with
      | .error e => .error e
      | .ok sec => .ok (some sec)
  | .ok false =>
  match pyContains "gridRenderer" sect with
  | .error e => .error e
  | .ok true =>
    match pyIndexStr sect "gridRenderer" with
    | .error e => .error e
    | .ok r =>
      match parse_grid_renderer r with
      | .error e => .error e
      | .ok sec => .ok (some sec)
  | .ok false => .ok none

/-- `parse_genre_header`: `musicHeaderRenderer` wins over
`musicImmersiveHeaderRenderer`; with neither key the header is `None`. -/
def parse_genre_header (response : Json) : Except Unit (Option GenreHeader) :=
  match pyGet response "header" (Json.obj []) with
  | .error e => .error e
  | .ok header =>
  match pyContains "musicHeaderRenderer" header with
  | .error e => .error e
  | .ok true => .ok (some (.basic (nav header ([.key "musicHeaderRenderer"] ++ TITLE_TEXT))))
  | .ok false =>
  match pyContains "musicImmersiveHeaderRenderer" header with
  | .error e => .error e
  | .ok true =>
    match pyIndexStr header "musicImmersiveHeaderRenderer" with
    | .error e => .error e
    | .ok ihr =>
      .ok (some (.immersive (nav ihr TITLE_TEXT)
        (nav ihr ([.key "thumbnail"] ++ THUMBNAIL_RENDERER ++ THUMBNAILS))))
  | .ok false => .ok none

/-- `_categorize_section`: append the section's items to the top-level
list matching its type; unknown types contribute to no list. -/
def _categorize_section (results : GenrePage) (sec : GenreSection) : GenrePage :=
  if sec.type = "songs" then { results with songs := results.songs ++ sec.items }
  else if sec.type = "playlists" then { results with playlists := results.playlists ++ sec.items }
  else if sec.type = "albums" then { results with albums := results.albums ++ sec.items }
  else if sec.type = "artists" then { results with artists := results.artists ++ sec.items }
  else results

/-- The `for section in contents` loop of `parse_genre_contents`: append
each parsed section to `sections` and categorise its items. -/
def contentsFold : List Json → GenrePage → Except Unit GenrePage
  | [], acc => .ok acc
  | s :: rest, acc =>
    match parse_genre_section s with
    | .error e => .error e
    | .ok none => contentsFold rest acc
    | .ok (some sec) =>
      contentsFold rest (_categorize_section { acc with sections := acc.sections ++ [sec] } sec)

/-- `parse_genre_contents`: parse the header, then descend the fixed path
to the section list; when that is absent or falsy, return the defaults. -/
def parse_genre_contents (response : Json) : Except Unit GenrePage :=
  match parse_genre_header response with
  | .error e => .error e
  | .ok header =>
    let results : GenrePage :=
      { header := header, songs := [], playlists := [], albums := [], artists := [], sections := [] }
    let contents := nav response SECTION_LIST_PATH
    if contents.truthy then
      match pyIter contents with
      | .error e => .error e
      | .ok secs => contentsFold secs results
    else .ok results

/-- `GenreMixin.browse_genre`: build the browse body and parse the
transport's response.  The transport (`_send_request`) is an external
collaborator and is passed in as the function `send` from the request
body to the response document. -/
def browse_genre (send : Json → Json) (params : Json) : Except Unit GenrePage :=
  parse_genre_contents (send (Json.obj
    [("browseId", Json.str "FEmusic_moods_and_genres_category"), ("params", params)]))

/-- The inner `for item in cat_items` loop of `GenreMixin.get_genre`:
first case-insensitive exact title match wins and its `params` are
browsed. -/
def getGenreItems (send : Json → Json) (nameLower : String) :
    List Json → Except Unit (Option GenrePage)
  | [] => .ok none
  | item :: rest =>
    match pyGet item "title" (Json.str "") with
    | .error e => .error e
    | .ok t =>
      match t with
      | .str ts =>
        if strLower ts = nameLower then
          match pyIndexStr item "params" with
          | .error e => .error e
          | .ok p =>
            match browse_genre send p with
            | .error e => .error e
            | .ok page => .ok (some page)
        else getGenreItems send nameLower rest
      | _ => .error ()

/-- The outer `for cat_items in categories.values()` loop of
`GenreMixin.get_genre`. -/
def getGenreCats (send : Json → Json) (nameLower : String) :
    List Json → Except Unit (Option GenrePage)
  | [] => .ok none
  | catItems :: rest =>
    match pyIter catItems with
    | .error e => .error e
    | .ok items =>
      match getGenreItems send nameLower items with
      | .error e => .error e
      | .ok (some page) => .ok (some page)
      | .ok none => getGenreCats send nameLower rest

/-- `GenreMixin.get_genre`: scan the category listing (the external
`get_mood_categories` result, passed in as `categories`) for a
case-insensitive exact title match and browse the first match; `none`
when no title matches. -/
def get_genre (send : Json → Json) (categories : Json) (genre_name : String) :
    Except Unit (Option GenrePage) :=
  match pyValues categories with
  | .error e => .error e
  | .ok vals => getGenreCats send (strLower genre_name) vals

/-! ### Generators for well-shaped documents

The following builders construct the JSON fragments the server sends for
each renderer, parameterised by the payload data.  The claim theorems
quantify over these parameters, so they cover every list of runs, cards,
songs and sections of the given shapes. -/

/-- A `{"title": {"runs": [{"text": t}]}}` block. -/
def titleObj (t : String) : Json :=
  Json.obj [("title", Json.obj [("runs", Json.arr [Json.obj [("text", Json.str t)]])])]

/-- A second-column run: its text and an optional browse id carried by a
navigation endpoint (`none` omits the endpoint entirely). -/
structure RunSpec where
  text : String
  bid : Option String

/-- The JSON of a second-column run. -/
def buildRun (r : RunSpec) : Json :=
  Json.obj ([("text", Json.str r.text)] ++
    (match r.bid with
     | some b => [("navigationEndpoint",
         Json.obj [("browseEndpoint", Json.obj [("browseId", Json.str b)])])]
     | none => []))

/-- An entity card: a title and an optional browse id. -/
structure CardSpec where
  title : String
  browseId : Option String

/-- The JSON of a `musicTwoRowItemRenderer` card item. -/
def buildCardItem (ttl : String) (bid : Option String) : Json :=
  Json.obj [("musicTwoRowItemRenderer", Json.obj
    ([("title", Json.obj [("runs", Json.arr [Json.obj [("text", Json.str ttl)]])])] ++
     (match bid with
      | some b => [("navigationEndpoint",
          Json.obj [("browseEndpoint", Json.obj [("browseId", Json.str b)])])]
      | none => [])))]

/-- A carousel/grid entry: `none` is an item without the two-row selector
key (dropped by the parser), `some c` a card. -/
def buildCarItem : Option CardSpec → Json
  | none => Json.obj []
  | some c => buildCardItem c.title c.browseId

/-- A shelf song: title, video id and second-column runs. -/
structure SongSpec where
  title : String
  videoId : String
  runs : List RunSpec

/-- The JSON of a `musicResponsiveListItemRenderer` song item. -/
def buildSongItem (t v : String) (rs : List RunSpec) : Json :=
  Json.obj [("musicResponsiveListItemRenderer", Json.obj [
    ("flexColumns", Json.arr [
      Json.obj [("musicResponsiveListItemFlexColumnRenderer", Json.obj [
        ("text", Json.obj [("runs", Json.arr [Json.obj [
          ("text", Json.str t),
          ("navigationEndpoint", Json.obj [("watchEndpoint",
            Json.obj [("videoId", Json.str v)])])]])])])],
      Json.obj [("musicResponsiveListItemFlexColumnRenderer", Json.obj [
        ("text", Json.obj [("runs", Json.arr (rs.map buildRun))])])]])])]

/-- A shelf entry: `none` is an item without the list-item selector key
(dropped by the parser), `some s` a song. -/
def buildShelfItem : Option SongSpec → Json
  | none => Json.obj []
  | some s => buildSongItem s.title s.videoId s.runs

/-- The JSON payload of a `musicCarouselShelfRenderer`. -/
def buildCarouselR (t : String) (its : List (Option CardSpec)) : Json :=
  Json.obj [
    ("header", Json.obj [("musicCarouselShelfBasicHeaderRenderer", titleObj t)]),
    ("contents", Json.arr (its.map buildCarItem))]

/-- The JSON payload of a `musicShelfRenderer`. -/
def buildShelfR (t : String) (its : List (Option SongSpec)) : Json :=
  Json.obj [
    ("title", Json.obj [("runs", Json.arr [Json.obj [("text", Json.str t)]])]),
    ("contents", Json.arr (its.map buildShelfItem))]

/-- The JSON payload of a `gridRenderer`. -/
def buildGridR (t : String) (its : List (Option CardSpec)) : Json :=
  Json.obj [
    ("header", Json.obj [("gridHeaderRenderer", titleObj t)]),
    ("items", Json.arr (its.map buildCarItem))]

/-- A top-level section of a well-shaped document; `junkS` is a section
with an unrecognised renderer key. -/
inductive SectionSpec where
  | carouselS (title : String) (items : List (Option CardSpec))
  | shelfS (title : String) (items : List (Option SongSpec))
  | gridS (title : String) (items : List (Option CardSpec))
  | junkS

/-- The JSON of a top-level section node. -/
def buildSection : SectionSpec → Json
  | .carouselS t its => Json.obj [("musicCarouselShelfRenderer", buildCarouselR t its)]
  | .shelfS t its => Json.obj [("musicShelfRenderer", buildShelfR t its)]
  | .gridS t its => Json.obj [("gridRenderer", buildGridR t its)]
  | .junkS => Json.obj [("itemSectionRenderer", Json.obj [])]

/-- The header of a well-shaped document. -/
inductive HeaderSpec where
  | noneH
  | basicH (t : String)
  | immersiveH (t : String)

/-- The `header` key-value pairs of a well-shaped document. -/
def headerKVs : HeaderSpec → List (String × Json)
  | .noneH => []
  | .basicH t => [("header", Json.obj [("musicHeaderRenderer", titleObj t)])]
  | .immersiveH t => [("header", Json.obj [("musicImmersiveHeaderRenderer", titleObj t)])]

/-- A well-shaped genre-page document: an optional header of either kind
and an optional section list. -/
structure DocSpec where
  header : HeaderSpec
  contents : Option (List SectionSpec)

/-- The `contents` key-value pairs of a well-shaped document. -/
def contentsKVs : Option (List SectionSpec) → List (String × Json)
  | none => []
  | some secs =>
    [("contents", Json.obj [("singleColumnBrowseResultsRenderer", Json.obj [
      ("tabs", Json.arr [Json.obj [("tabRenderer", Json.obj [
        ("content", Json.obj [("sectionListRenderer", Json.obj [
          ("contents", Json.arr (secs.map buildSection))])])])]])])])]

/-- The JSON of a well-shaped genre-page document. -/
def buildDoc (d : DocSpec) : Json :=
  Json.obj (headerKVs d.header ++ contentsKVs d.contents)

/-! ### Spec-side descriptions of the parsed fields -/

/-- The result type the source derives for a generated card's browse id:
a falsy (absent or empty) browse id gives `"playlist"`, then the `"MPRE"`
and `"UC"` prefixes are checked in that order. -/
def cardResultType : Option String → String
  | none => "playlist"
  | some b =>
    if b = "" then "playlist"
    else if strStarts b "MPRE" then "album"
    else if strStarts b "UC" then "artist"
    else "playlist"

/-- The card the parser produces for a generated card item. -/
def cardOf (c : CardSpec) : Card :=
  { resultType := cardResultType c.browseId
    title := Json.str c.title
    subtitle := ""
    browseId := match c.browseId with | some b => Json.str b | none => Json.null
    thumbnails := Json.null }

/-- The effect of one second-column run on the song under construction,
mirroring the loop body of `parse_genre_song` on generated runs. -/
def stepSpec (song : Song) (r : RunSpec) : Song :=
  match r.bid with
  | some b =>
    if b = "" then
      if _is_view_count r.text then { song with views := some r.text } else song
    else if strStarts b "UC" then
      { song with artists := song.artists ++ [{ name := Json.str r.text, id := b }] }
    else if strStarts b "MPREb" then
      { song with album := some { name := Json.str r.text, id := b } }
    else song
  | none =>
    if _is_view_count r.text then { song with views := some r.text } else song

/-- The artist entry a run contributes: runs with a nonempty browse id
prefixed `"UC"`. -/
def ucOf (r : RunSpec) : Option ArtistRef :=
  match r.bid with
  | some b =>
    if b = "" then none
    else if strStarts b "UC" then some { name := Json.str r.text, id := b }
    else none
  | none => none

/-- The album entry a run contributes: runs with a nonempty browse id
prefixed `"MPREb"` (the `"UC"` guard mirrors the source's `elif`; the two
prefixes are disjoint). -/
def mpOf (r : RunSpec) : Option AlbumRef :=
  match r.bid with
  | some b =>
    if b = "" then none
    else if strStarts b "UC" then none
    else if strStarts b "MPREb" then some { name := Json.str r.text, id := b }
    else none
  | none => none

/-- The view-count text a run contributes: runs with a falsy browse id
whose text passes `_is_view_count`. -/
def vOf (r : RunSpec) : Option String :=
  match r.bid with
  | some b =>
    if b = "" then (if _is_view_count r.text then some r.text else none)
    else none
  | none => if _is_view_count r.text then some r.text else none

/-- The song the parser produces for a generated song item, before the
second-column scan. -/
def initSong (t v : String) : Song :=
  { title := Json.str t, videoId := Json.str v, artists := [], album := none,
    views := none, thumbnails := Json.null }

/-- The concatenation of the items of all sections of a given type, in
section order then item order. -/
def catItems (t : String) (secs : List GenreSection) : List GItem :=
  ((secs.filter fun s => s.type == t).map (·.items)).flatten

/-! ### Category listing generators for `get_genre` -/

/-- One entry of the external category listing: a title and an opaque
params token. -/
structure GenreEntry where
  title : String
  params : Json

/-- The external category listing: category names with their entries. -/
def Listing := List (String × List GenreEntry)

/-- The JSON of one listing entry. -/
def buildEntry (e : GenreEntry) : Json :=
  Json.obj [("title", Json.str e.title), ("params", e.params)]

/-- The JSON mapping `get_mood_categories` returns, for a structured
listing. -/
def buildCategories (l : Listing) : Json :=
  Json.obj (l.map fun ce => (ce.1, Json.arr (ce.2.map buildEntry)))

/-- Modelled from the spec: `get_genre` "performs a case-insensitive
exact match on `title`" while "iterating categories then items in listing
order" and takes the first match's `params`. -/
def firstMatchParams (name : String) : Listing → Option Json
  | [] => none
  | (_, es) :: rest =>
    match es.find? (fun e => strLower e.title == strLower name) with
    | some e => some e.params
    | none => firstMatchParams name rest

/-- Browse the given params when there are some, else return null. -/
def browseFirst (send : Json → Json) : Option Json → Except Unit (Option GenrePage)
  | some p => (browse_genre send p).map some
  | none => .ok none

/-- Modelled from the spec: the contract of `get_genre` — browse the
first case-insensitively matching entry's params, or return null when no
title matches. -/
def get_genre_spec (send : Json → Json) (l : Listing) (name : String) :
    Except Unit (Option GenrePage) :=
  browseFirst send (firstMatchParams name l)

/-! ### Reduction lemmas -/

/-- Pushing `Except.ok` through an `if`. -/
theorem ok_ite {α : Type} (p : Prop) [Decidable p] (a b : α) :
    (if p then (Except.ok a : Except Unit α) else .ok b) = .ok (if p then a else b) := by
  split <;> rfl

/-- The loop body of the second-column scan, evaluated on a generated
run, is exactly `stepSpec`. -/
theorem scanRun_buildRun (s : Song) (r : RunSpec) :
    scanRun s (buildRun r) = .ok (stepSpec s r) := by
  obtain ⟨t, bid⟩ := r
  cases bid with
  | none => simp [scanRun, buildRun, stepSpec, pyGet, jlookup, nav, Json.truthy, ok_ite]
  | some b =>
    by_cases hb : b = ""
    · subst hb
      simp [scanRun, buildRun, stepSpec, pyGet, jlookup, nav, Json.truthy, ok_ite]
    · simp [scanRun, buildRun, stepSpec, pyGet, jlookup, nav, Json.truthy, hb, ok_ite]

/-- The second-column loop on generated runs is the pure left fold of
`stepSpec`. -/
theorem scanRuns_build (rs : List RunSpec) (s : Song) :
    scanRuns (rs.map buildRun) s = .ok (rs.foldl stepSpec s) := by
  induction rs generalizing s with
  | nil => rfl
  | cons r rest ih => simp [scanRuns, scanRun_buildRun, ih, List.foldl]

/-- `stepSpec` only ever appends to the artist list: the artists of the
fold are the seed's artists followed by the `"UC"` contributions in run
order. -/
theorem foldl_stepSpec_artists (rs : List RunSpec) (s : Song) :
    (rs.foldl stepSpec s).artists = s.artists ++ rs.filterMap ucOf := by
  induction rs generalizing s with
  | nil => simp
  | cons r rest ih =>
    obtain ⟨t, bid⟩ := r
    cases bid with
    | none =>
      simp only [List.foldl, List.filterMap]
      rw [ih]
      simp [stepSpec, ucOf]
      split <;> simp
    | some b =>
      simp only [List.foldl, List.filterMap]
      rw [ih]
      by_cases hb : b = ""
      · subst hb
        simp [stepSpec, ucOf]
        split <;> simp
      · simp only [stepSpec, ucOf, hb, if_neg, if_false]
        split <;> split <;> simp_all

/-- The last element of a list of contributions, or the seed when there
is none: the value left behind by a sequence of overwrites. -/
def lastWins {α : Type} (l : List α) (init : Option α) : Option α :=
  match l.getLast? with
  | some a => some a
  | none => init

/-- Folding an overwriting update over a list keeps the last element (or
the seed when the list is empty). -/
theorem overwrite_foldl {α : Type} (l : List α) (init : Option α) :
    l.foldl (fun _ a => some a) init = lastWins l init := by
  induction l generalizing init with
  | nil => rfl
  | cons a l ih =>
    cases l with
    | nil => simp [List.foldl, lastWins]
    | cons b l2 =>
      rw [show ((a :: b :: l2).foldl (fun _ x => some x) init) =
        ((b :: l2).foldl (fun _ x => some x) (some a)) from rfl]
      rw [ih (some a)]
      unfold lastWins
      rw [List.getLast?_cons_cons]
      cases h : (b :: l2).getLast? with
      | some x => rfl
      | none => simp at h

/-- The album field of the scan fold: each `"MPREb"` run overwrites it,
so the last contribution wins (the seed's album when there is none). -/
theorem foldl_stepSpec_album_ov (rs : List RunSpec) (s : Song) :
    (rs.foldl stepSpec s).album =
      (rs.filterMap mpOf).foldl (fun _ a => some a) s.album := by
  induction rs generalizing s with
  | nil => simp
  | cons r rest ih =>
    obtain ⟨t, bid⟩ := r
    cases bid with
    | none =>
      simp only [List.foldl, List.filterMap]
      rw [ih]
      simp [stepSpec, mpOf]
      split <;> simp
    | some b =>
      simp only [List.foldl, List.filterMap]
      rw [ih]
      by_cases hb : b = ""
      · subst hb
        simp [stepSpec, mpOf]
        split <;> simp
      · simp only [stepSpec, mpOf, hb, if_neg, if_false]
        split <;> (try split) <;> simp_all

/-- The views field of the scan fold: each matching run overwrites it, so
the last matching run's text wins (the seed's views when there is none). -/
theorem foldl_stepSpec_views_ov (rs : List RunSpec) (s : Song) :
    (rs.foldl stepSpec s).views =
      (rs.filterMap vOf).foldl (fun _ v => some v) s.views := by
  induction rs generalizing s with
  | nil => simp
  | cons r rest ih =>
    obtain ⟨t, bid⟩ := r
    cases bid with
    | none =>
      simp only [List.foldl, List.filterMap]
      rw [ih]
      simp [stepSpec, vOf]
      split <;> simp
    | some b =>
      simp only [List.foldl, List.filterMap]
      rw [ih]
      by_cases hb : b = ""
      · subst hb
        simp only [stepSpec, vOf, if_pos]
        split <;> simp
      · simp only [stepSpec, vOf, hb, if_neg, if_false]
        split <;> (try split) <;> simp_all

/-- The album field of the scan fold: each `"MPREb"` run overwrites it,
so the last contribution wins (the seed's album when there is none). -/
theorem foldl_stepSpec_album (rs : List RunSpec) (s : Song) :
    (rs.foldl stepSpec s).album = lastWins (rs.filterMap mpOf) s.album :=
  (foldl_stepSpec_album_ov rs s).trans (overwrite_foldl _ _)

/-- The views field of the scan fold: each matching run overwrites it, so
the last matching run's text wins (the seed's views when there is none). -/
theorem foldl_stepSpec_views (rs : List RunSpec) (s : Song) :
    (rs.foldl stepSpec s).views = lastWins (rs.filterMap vOf) s.views :=
  (foldl_stepSpec_views_ov rs s).trans (overwrite_foldl _ _)

/-- The scan fold never touches title, video id or thumbnails. -/
theorem foldl_stepSpec_fixed (rs : List RunSpec) (s : Song) :
    (rs.foldl stepSpec s).title = s.title ∧
    (rs.foldl stepSpec s).videoId = s.videoId ∧
    (rs.foldl stepSpec s).thumbnails = s.thumbnails := by
  induction rs generalizing s with
  | nil => exact ⟨rfl, rfl, rfl⟩
  | cons r rest ih =>
    obtain ⟨t, bid⟩ := r
    have h := ih (stepSpec ⟨s.title, s.videoId, s.artists, s.album, s.views, s.thumbnails⟩ ⟨t, bid⟩)
    cases bid with
    | none =>
      simp only [List.foldl]
      rcases ih (stepSpec s ⟨t, none⟩) with ⟨h1, h2, h3⟩
      refine ⟨h1.trans ?_, h2.trans ?_, h3.trans ?_⟩ <;>
        (simp [stepSpec]; split <;> rfl)
    | some b =>
      simp only [List.foldl]
      rcases ih (stepSpec s ⟨t, some b⟩) with ⟨h1, h2, h3⟩
      refine ⟨h1.trans ?_, h2.trans ?_, h3.trans ?_⟩ <;>
        (simp only [stepSpec]; split <;> (try split) <;> (try split) <;> rfl)

/-- Iterating `nav(...) or []` over a generated run list yields exactly
the runs. -/
theorem pyIter_pyOr_arr (l : List Json) :
    pyIter (pyOr (Json.arr l) (Json.arr [])) = .ok l := by
  cases l <;> simp [pyOr, pyIter, Json.truthy]

/-- The unfolded form of `pyIter_pyOr_arr`. -/
theorem pyIter_ite_arr (l : List Json) :
    pyIter (if (!l.isEmpty) = true then Json.arr l else Json.arr []) = .ok l := by
  cases l <;> simp [pyIter]

/-- `parse_genre_song` on a generated song item: the title and video id
come from the first column, and the second column is the `stepSpec` fold
over the runs. -/
theorem parse_genre_song_build (t v : String) (rs : List RunSpec) :
    parse_genre_song (buildSongItem t v rs) = .ok (some (rs.foldl stepSpec (initSong t v))) := by
  have hthumb : (rs.foldl stepSpec (initSong t v)).thumbnails = Json.null :=
    (foldl_stepSpec_fixed rs (initSong t v)).2.2
  have key : ∀ s : Song, s.thumbnails = Json.null →
      ({ s with thumbnails := Json.null } : Song) = s := by
    intro s h
    obtain ⟨f1, f2, f3, f4, f5, f6⟩ := s
    simp_all
  simp [parse_genre_song, buildSongItem, songCol1, songCol2, pyContains, pyIndexStr,
    pyGet, pyIndexNat, pyLen, jlookup, nav, Json.truthy, pyIter_ite_arr, scanRuns_build,
    emptySong, initSong, pyOr, THUMBNAIL_RENDERER, THUMBNAILS]
  exact key _ hthumb

/-- `parse_two_row_item` on a generated card item yields the card
described by `cardOf`. -/
theorem parse_two_row_item_build (ttl : String) (bid : Option String) :
    parse_two_row_item (buildCardItem ttl bid) =
      .ok (some (cardOf { title := ttl, browseId := bid })) := by
  cases bid with
  | none =>
    simp [parse_two_row_item, buildCardItem, cardOf, cardResultType, pyContains, pyIndexStr,
      pyGet, pyIter, pyJoin, pyOr, runsTexts, jlookup, nav, Json.truthy,
      _get_type_from_browse_id, TITLE_TEXT, THUMBNAIL_RENDERER, THUMBNAILS]
  | some b =>
    by_cases hb : b = ""
    · subst hb
      simp [parse_two_row_item, buildCardItem, cardOf, cardResultType, pyContains, pyIndexStr,
        pyGet, pyIter, pyJoin, pyOr, runsTexts, jlookup, nav, Json.truthy,
        _get_type_from_browse_id, TITLE_TEXT, THUMBNAIL_RENDERER, THUMBNAILS]
    · simp [parse_two_row_item, buildCardItem, cardOf, cardResultType, pyContains, pyIndexStr,
        pyGet, pyIter, pyJoin, pyOr, runsTexts, jlookup, nav, Json.truthy,
        _get_type_from_browse_id, TITLE_TEXT, THUMBNAIL_RENDERER, THUMBNAILS, hb]

/-- `parse_two_row_item` on a generated carousel/grid entry. -/
theorem parse_two_row_item_buildCar (o : Option CardSpec) :
    parse_two_row_item (buildCarItem o) =
      .ok (o.map fun c => cardOf c) := by
  cases o with
  | none => rfl
  | some c =>
    obtain ⟨t, b⟩ := c
    simpa using parse_two_row_item_build t b

/-- The items a list of generated entries contributes, in order. -/
def cardsOf (specs : List (Option CardSpec)) : List GItem :=
  (specs.filterMap id).map fun c => GItem.card (cardOf c)

/-- The carousel type update over generated entries: each parsed card
updates the type only while it is still `"unknown"`. -/
def carouselTy (ty : String) : List (Option CardSpec) → String
  | [] => ty
  | none :: rest => carouselTy ty rest
  | some c :: rest =>
    carouselTy (if ty = "unknown" then (cardOf c).resultType ++ "s" else ty) rest

/-- The carousel loop on generated entries accumulates `cardsOf` and the
`carouselTy` type. -/
theorem carouselFold_build (specs : List (Option CardSpec)) (items0 : List GItem) (ty0 : String) :
    carouselFold (specs.map buildCarItem) items0 ty0 =
      .ok (items0 ++ cardsOf specs, carouselTy ty0 specs) := by
  induction specs generalizing items0 ty0 with
  | nil => simp [carouselFold, cardsOf, carouselTy]
  | cons o rest ih =>
    cases o with
    | none =>
      simp only [List.map, carouselFold, parse_two_row_item_buildCar, Option.map]
      rw [ih]
      simp [cardsOf, carouselTy]
    | some c =>
      simp only [List.map, carouselFold, parse_two_row_item_buildCar, Option.map]
      rw [ih]
      simp [cardsOf, carouselTy, List.filterMap_cons]

/-- `parse_carousel_shelf` on a generated carousel payload. -/
theorem parse_carousel_shelf_build (t : String) (specs : List (Option CardSpec)) :
    parse_carousel_shelf (buildCarouselR t specs) =
      .ok { title := Json.str t, type := carouselTy "unknown" specs, items := cardsOf specs } := by
  simp [parse_carousel_shelf, buildCarouselR, titleObj, pyGet, jlookup, pyIter, nav,
    TITLE_TEXT, carouselFold_build]

/-- The song a generated shelf song parses to. -/
def songOf (s : SongSpec) : Song :=
  s.runs.foldl stepSpec (initSong s.title s.videoId)

/-- The items a list of generated shelf entries contributes, in order. -/
def songsOf (its : List (Option SongSpec)) : List GItem :=
  (its.filterMap id).map fun s => GItem.song (songOf s)

/-- `parse_genre_song` on a generated shelf entry. -/
theorem parse_genre_song_buildShelf (o : Option SongSpec) :
    parse_genre_song (buildShelfItem o) = .ok (o.map fun s => songOf s) := by
  cases o with
  | none => rfl
  | some s =>
    obtain ⟨t, v, rs⟩ := s
    simpa [songOf] using parse_genre_song_build t v rs

/-- The shelf loop on generated entries accumulates `songsOf`. -/
theorem shelfItemsFold_build (its : List (Option SongSpec)) (items0 : List GItem) :
    shelfItemsFold (its.map buildShelfItem) items0 = .ok (items0 ++ songsOf its) := by
  induction its generalizing items0 with
  | nil => simp [shelfItemsFold, songsOf]
  | cons o rest ih =>
    cases o with
    | none =>
      simp only [List.map, shelfItemsFold, parse_genre_song_buildShelf, Option.map]
      rw [ih]
      simp [songsOf]
    | some s =>
      simp only [List.map, shelfItemsFold, parse_genre_song_buildShelf, Option.map]
      rw [ih]
      simp [songsOf, List.filterMap_cons]

/-- `parse_music_shelf` on a generated shelf payload. -/
theorem parse_music_shelf_build (t : String) (its : List (Option SongSpec)) :
    parse_music_shelf (buildShelfR t its) =
      .ok { title := Json.str t, type := "songs", items := songsOf its } := by
  simp [parse_music_shelf, buildShelfR, pyGet, jlookup, pyIter, nav, TITLE_TEXT,
    shelfItemsFold_build]

/-- The grid loop on generated entries accumulates `cardsOf`. -/
theorem gridItemsFold_build (specs : List (Option CardSpec)) (items0 : List GItem) :
    gridItemsFold (specs.map buildCarItem) items0 = .ok (items0 ++ cardsOf specs) := by
  induction specs generalizing items0 with
  | nil => simp [gridItemsFold, cardsOf]
  | cons o rest ih =>
    cases o with
    | none =>
      simp only [List.map, gridItemsFold, parse_two_row_item_buildCar, Option.map]
      rw [ih]
      simp [cardsOf]
    | some c =>
      simp only [List.map, gridItemsFold, parse_two_row_item_buildCar, Option.map]
      rw [ih]
      simp [cardsOf, List.filterMap_cons]

/-- `parse_grid_renderer` on a generated grid payload. -/
theorem parse_grid_renderer_build (t : String) (specs : List (Option CardSpec)) :
    parse_grid_renderer (buildGridR t specs) =
      .ok { title := Json.str t, type := "playlists", items := cardsOf specs } := by
  simp [parse_grid_renderer, buildGridR, titleObj, pyGet, jlookup, pyIter, nav, TITLE_TEXT,
    gridItemsFold_build]

/-- The section a generated section node parses to (`none` for the
unrecognised renderer). -/
def sectionOf : SectionSpec → Option GenreSection
  | .carouselS t its =>
    some { title := Json.str t, type := carouselTy "unknown" its, items := cardsOf its }
  | .shelfS t its => some { title := Json.str t, type := "songs", items := songsOf its }
  | .gridS t its => some { title := Json.str t, type := "playlists", items := cardsOf its }
  | .junkS => none

/-- `parse_genre_section` on a generated section node. -/
theorem parse_genre_section_build (s : SectionSpec) :
    parse_genre_section (buildSection s) = .ok (sectionOf s) := by
  cases s with
  | carouselS t its =>
    simp [parse_genre_section, buildSection, sectionOf, pyContains, pyIndexStr, jlookup,
      parse_carousel_shelf_build]
  | shelfS t its =>
    simp [parse_genre_section, buildSection, sectionOf, pyContains, pyIndexStr, jlookup,
      parse_music_shelf_build]
  | gridS t its =>
    simp [parse_genre_section, buildSection, sectionOf, pyContains, pyIndexStr, jlookup,
      parse_grid_renderer_build]
  | junkS =>
    simp [parse_genre_section, buildSection, sectionOf, pyContains, pyIndexStr, jlookup]

/-- The header a generated document parses to. -/
def headerOf : HeaderSpec → Option GenreHeader
  | .noneH => none
  | .basicH t => some (.basic (Json.str t))
  | .immersiveH t => some (.immersive (Json.str t) Json.null)

/-- `parse_genre_header` on a generated document. -/
theorem parse_genre_header_build (d : DocSpec) :
    parse_genre_header (buildDoc d) = .ok (headerOf d.header) := by
  obtain ⟨h, c⟩ := d
  cases h <;> cases c <;>
    simp [parse_genre_header, buildDoc, headerKVs, contentsKVs, titleObj, pyGet, pyContains,
      pyIndexStr, jlookup, nav, TITLE_TEXT, THUMBNAIL_RENDERER, THUMBNAILS, headerOf]

/-- The JSON sitting at the end of the section-list path of a generated
document. -/
def contentsJson : Option (List SectionSpec) → Json
  | none => Json.null
  | some secs => Json.arr (secs.map buildSection)

/-- The section-list path of a generated document resolves to its
generated section array (or to null when absent). -/
theorem nav_buildDoc (d : DocSpec) :
    nav (buildDoc d) SECTION_LIST_PATH = contentsJson d.contents := by
  obtain ⟨h, c⟩ := d
  cases h <;> cases c <;>
    simp [buildDoc, headerKVs, contentsKVs, titleObj, jlookup, nav, SECTION_LIST_PATH,
      contentsJson]

/-- The pure content of the section loop on generated sections. -/
def pageFold : List SectionSpec → GenrePage → GenrePage
  | [], acc => acc
  | s :: rest, acc =>
    match sectionOf s with
    | none => pageFold rest acc
    | some sec =>
      pageFold rest (_categorize_section { acc with sections := acc.sections ++ [sec] } sec)

/-- The section loop on generated sections succeeds with `pageFold`. -/
theorem contentsFold_build (secs : List SectionSpec) (acc : GenrePage) :
    contentsFold (secs.map buildSection) acc = .ok (pageFold secs acc) := by
  induction secs generalizing acc with
  | nil => rfl
  | cons s rest ih =>
    simp only [List.map, contentsFold, parse_genre_section_build, pageFold]
    cases sectionOf s with
    | none => exact ih acc
    | some sec => exact ih _

/-- The page a generated document parses to. -/
def pageOf (d : DocSpec) : GenrePage :=
  let init : GenrePage :=
    { header := headerOf d.header, songs := [], playlists := [], albums := [], artists := [],
      sections := [] }
  match d.contents with
  | none => init
  | some secs => pageFold secs init

/-- `parse_genre_contents` on a generated document: it succeeds and
produces exactly the page described by `pageOf`. -/
theorem parse_genre_contents_build (d : DocSpec) :
    parse_genre_contents (buildDoc d) = .ok (pageOf d) := by
  have hh := parse_genre_header_build d
  have hn := nav_buildDoc d
  obtain ⟨h, c⟩ := d
  cases c with
  | none =>
    simp [parse_genre_contents, hh, hn, contentsJson, Json.truthy, pageOf]
  | some secs =>
    cases secs with
    | nil =>
      simp [parse_genre_contents, hh, hn, contentsJson, Json.truthy, pageOf, pageFold]
    | cons s rest =>
      simp [parse_genre_contents, hh, hn, contentsJson, Json.truthy, pyIter,
        pageOf, ← contentsFold_build]

/-- The categorisation invariant: each top-level list is the
concatenation, in section order then item order, of the items of the
sections of that type. -/
def Good (p : GenrePage) : Prop :=
  p.songs = catItems "songs" p.sections ∧
  p.playlists = catItems "playlists" p.sections ∧
  p.albums = catItems "albums" p.sections ∧
  p.artists = catItems "artists" p.sections

/-- Appending one section extends each category's concatenation by that
section's items exactly when the type matches. -/
theorem catItems_append (t : String) (secs : List GenreSection) (sec : GenreSection) :
    catItems t (secs ++ [sec]) =
      catItems t secs ++ (if sec.type = t then sec.items else []) := by
  by_cases h : sec.type = t
  · have hb : (sec.type == t) = true := beq_iff_eq.mpr h
    simp [catItems, List.filter_append, List.filter, h, hb]
  · have hb : (sec.type == t) = false := beq_eq_false_iff_ne.mpr h
    simp [catItems, List.filter_append, List.filter, h, hb]

/-- `_categorize_section` preserves the categorisation invariant when the
section is simultaneously appended to `sections`. -/
theorem good_categorize (p : GenrePage) (sec : GenreSection) (hg : Good p) :
    Good (_categorize_section { p with sections := p.sections ++ [sec] } sec) := by
  obtain ⟨h1, h2, h3, h4⟩ := hg
  by_cases hs : sec.type = "songs"
  · refine ⟨?_, ?_, ?_, ?_⟩ <;>
      simp [_categorize_section, hs, catItems_append, h1, h2, h3, h4]
  by_cases hp : sec.type = "playlists"
  · refine ⟨?_, ?_, ?_, ?_⟩ <;>
      simp [_categorize_section, hs, hp, catItems_append, h1, h2, h3, h4]
  by_cases hb : sec.type = "albums"
  · refine ⟨?_, ?_, ?_, ?_⟩ <;>
      simp [_categorize_section, hs, hp, hb, catItems_append, h1, h2, h3, h4]
  by_cases ha : sec.type = "artists"
  · refine ⟨?_, ?_, ?_, ?_⟩ <;>
      simp [_categorize_section, hs, hp, hb, ha, catItems_append, h1, h2, h3, h4]
  · refine ⟨?_, ?_, ?_, ?_⟩ <;>
      simp [_categorize_section, hs, hp, hb, ha, catItems_append, h1, h2, h3, h4]

/-- The section loop preserves the categorisation invariant. -/
theorem contentsFold_good (l : List Json) (acc out : GenrePage) (hg : Good acc)
    (h : contentsFold l acc = .ok out) : Good out := by
  induction l generalizing acc with
  | nil =>
    cases h
    exact hg
  | cons s rest ih =>
    unfold contentsFold at h
    cases hp : parse_genre_section s with
    | error e => rw [hp] at h; cases h
    | ok o =>
      rw [hp] at h
      cases o with
      | none => exact ih acc hg h
      | some sec => exact ih _ (good_categorize acc sec hg) h

/-- Every member of a category concatenation lies in some section of the
page. -/
theorem mem_catItems {x : GItem} {t : String} {secs : List GenreSection}
    (h : x ∈ catItems t secs) : ∃ s, s ∈ secs ∧ x ∈ s.items := by
  simp only [catItems, List.mem_flatten, List.mem_map, List.mem_filter] at h
  obtain ⟨l, ⟨s, ⟨hmem, _⟩, hitems⟩, hx⟩ := h
  exact ⟨s, hmem, hitems ▸ hx⟩

/-- Any successful parse satisfies the categorisation invariant. -/
theorem parse_good (response : Json) (page : GenrePage)
    (h : parse_genre_contents response = .ok page) : Good page := by
  unfold parse_genre_contents at h
  cases hh : parse_genre_header response with
  | error e => rw [hh] at h; cases h
  | ok hd =>
    rw [hh] at h
    simp only at h
    by_cases ht : (nav response SECTION_LIST_PATH).truthy
    · rw [if_pos ht] at h
      cases hi : pyIter (nav response SECTION_LIST_PATH) with
      | error e => rw [hi] at h; cases h
      | ok secs =>
        rw [hi] at h
        exact contentsFold_good secs _ page ⟨rfl, rfl, rfl, rfl⟩ h
    · rw [if_neg ht] at h
      cases h
      exact ⟨rfl, rfl, rfl, rfl⟩

/-- The inner item loop of `get_genre` on generated entries browses the
first case-insensitive title match. -/
theorem getGenreItems_build (send : Json → Json) (nl : String) (es : List GenreEntry) :
    getGenreItems send nl (es.map buildEntry) =
      browseFirst send ((es.find? fun e => strLower e.title == nl).map (·.params)) := by
  induction es with
  | nil => rfl
  | cons e rest ih =>
    by_cases hm : strLower e.title = nl
    · have hb : (strLower e.title == nl) = true := beq_iff_eq.mpr hm
      simp only [List.map, getGenreItems, List.find?, hb, Option.map, browseFirst]
      simp [buildEntry, pyGet, pyIndexStr, jlookup, hm]
      cases hbr : browse_genre send e.params <;> simp [hbr, Except.map]
    · have hb : (strLower e.title == nl) = false := beq_eq_false_iff_ne.mpr hm
      simp only [List.map, getGenreItems, List.find?, hb]
      simp [buildEntry, pyGet, jlookup, hm]
      simpa using ih

/-- The outer category loop of `get_genre` on a generated listing
browses the first match over categories then items in listing order. -/
theorem getGenreCats_build (send : Json → Json) (name : String) (l : Listing) :
    getGenreCats send (strLower name) (l.map fun ce => Json.arr (ce.2.map buildEntry)) =
      browseFirst send (firstMatchParams name l) := by
  induction l with
  | nil => rfl
  | cons ce rest ih =>
    obtain ⟨cname, es⟩ := ce
    simp only [List.map, getGenreCats, pyIter, firstMatchParams]
    rw [getGenreItems_build]
    cases hf : es.find? (fun e => strLower e.title == strLower name) with
    | none => simpa [browseFirst] using ih
    | some e =>
      cases hbr : browse_genre send e.params <;> simp [browseFirst, hbr, Except.map]

/-! ### Helpers for the carousel-type claim -/

/-- The derived result type is always one of the three known values. -/
theorem cardResultType_cases (bid : Option String) :
    cardResultType bid = "album" ∨ cardResultType bid = "artist" ∨
      cardResultType bid = "playlist" := by
  cases bid with
  | none => right; right; rfl
  | some b =>
    simp only [cardResultType]
    split_ifs <;> simp

/-- A carousel type other than `"unknown"` is never updated again. -/
theorem carouselTy_ne (ty : String) (specs : List (Option CardSpec)) (h : ty ≠ "unknown") :
    carouselTy ty specs = ty := by
  induction specs with
  | nil => rfl
  | cons o rest ih =>
    cases o with
    | none => exact ih
    | some c => simpa [carouselTy, h] using ih

/-- The carousel type starting from `"unknown"` is the first parsed
card's result type pluralised, or `"unknown"` when no card parses. -/
theorem carouselTy_unknown (specs : List (Option CardSpec)) :
    carouselTy "unknown" specs =
      (match (specs.filterMap id).head? with
       | some c => (cardOf c).resultType ++ "s"
       | none => "unknown") := by
  induction specs with
  | nil => rfl
  | cons o rest ih =>
    cases o with
    | none => simpa [carouselTy, List.filterMap_cons] using ih
    | some c =>
      simp only [carouselTy, List.filterMap_cons, if_pos, List.head?_cons, id]
      apply carouselTy_ne
      rcases cardResultType_cases c.browseId with h | h | h <;>
        simp [cardOf, h]

/-! ### The claims -/

/-- C1: every item placed in a top-level category list (`songs`,
`playlists`, `albums`, `artists`) by `parse_genre_contents` also lies in
a section of the result, and each category list is exactly the
concatenation of the matching sections' items in section order then item
order, with no deduplication and no sorting (so each occurrence comes
from exactly one section occurrence). -/
theorem claim_C1_categorization (response : Json) (page : GenrePage)
    (h : parse_genre_contents response = .ok page) :
    page.songs = catItems "songs" page.sections ∧
    page.playlists = catItems "playlists" page.sections ∧
    page.albums = catItems "albums" page.sections ∧
    page.artists = catItems "artists" page.sections ∧
    ∀ x : GItem,
      (x ∈ page.songs ∨ x ∈ page.playlists ∨ x ∈ page.albums ∨ x ∈ page.artists) →
      ∃ s, s ∈ page.sections ∧ x ∈ s.items := by
  obtain ⟨h1, h2, h3, h4⟩ := parse_good response page h
  refine ⟨h1, h2, h3, h4, ?_⟩
  intro x hx
  rcases hx with hx | hx | hx | hx
  · exact mem_catItems (h1 ▸ hx)
  · exact mem_catItems (h2 ▸ hx)
  · exact mem_catItems (h3 ▸ hx)
  · exact mem_catItems (h4 ▸ hx)

/-- The document of the C1 witness: one song shelf and one album
carousel. -/
def c1doc : DocSpec :=
  { header := .noneH
    contents := some
      [.shelfS "Top" [some { title := "S", videoId := "V", runs := [{ text := "A", bid := some "UCa" }] }],
       .carouselS "Albums" [some { title := "X", browseId := some "MPREx" }]] }

/-- C1 witness: the categorisation invariant evaluated on a concrete
two-section document. -/
theorem claim_C1_categorization_witness :
    (pageOf c1doc).songs = catItems "songs" (pageOf c1doc).sections ∧
    (pageOf c1doc).albums = catItems "albums" (pageOf c1doc).sections :=
  ⟨(claim_C1_categorization (buildDoc c1doc) (pageOf c1doc) (parse_genre_contents_build c1doc)).1,
   (claim_C1_categorization (buildDoc c1doc) (pageOf c1doc) (parse_genre_contents_build c1doc)).2.2.1⟩

/-- C2 counterexample: on an item with two `"MPREb"` runs the parsed
album is the second (last) run's, not the first's as the claim's "first
match wins" states — the source overwrites `song["album"]` on every
match. -/
theorem claim_C2_counterexample :
    (parse_genre_song (buildSongItem "T" "V"
        [{ text := "A1", bid := some "MPREb1" }, { text := "A2", bid := some "MPREb2" }])).map
      (Option.map Song.album) =
      .ok (some (some { name := Json.str "A2", id := "MPREb2" })) ∧
    ({ name := Json.str "A2", id := "MPREb2" } : AlbumRef) ≠
      { name := Json.str "A1", id := "MPREb1" } := by
  refine ⟨rfl, ?_⟩
  intro hcontra
  have : ("MPREb2" : String) = "MPREb1" := congrArg AlbumRef.id hcontra
  exact absurd this (by decide)

/-- C2 (amended): every run with a nonempty browse id prefixed `"UC"` is
appended to the artist list as `{name, id}` in run order, with no early
exit; a run prefixed `"MPREb"` overwrites the album, so the LAST such
run wins (in particular, with runs `"UC1"`, `"UC2"`, `"MPREb1"` the
artists are both `"UC"` runs in order and the album is the single
`"MPREb1"` run). -/
theorem claim_C2_amended (t v : String) (rs : List RunSpec) :
    ∃ song, parse_genre_song (buildSongItem t v rs) = .ok (some song) ∧
      song.artists = rs.filterMap ucOf ∧
      song.album = (rs.filterMap mpOf).getLast? := by
  refine ⟨rs.foldl stepSpec (initSong t v), parse_genre_song_build t v rs, ?_, ?_⟩
  · simpa [initSong] using foldl_stepSpec_artists rs (initSong t v)
  · rw [foldl_stepSpec_album rs (initSong t v)]
    unfold lastWins
    cases (rs.filterMap mpOf).getLast? <;> rfl

/-- C3 counterexample: with two view-count runs the kept text is the
second (last) run's, not the first's as the claim states — the source
overwrites `song["views"]` on every match. -/
theorem claim_C3_counterexample :
    (parse_genre_song (buildSongItem "T" "V"
        [{ text := "1M views", bid := none }, { text := "2M views", bid := none }])).map
      (Option.map Song.views) = .ok (some (some "2M views")) ∧
    ("2M views" : String) ≠ "1M views" := by
  exact ⟨rfl, by decide⟩

/-- C3 (amended): a second-column run with no (or empty) browse id sets
`views` exactly when `_is_view_count` accepts its text — the text
contains `"view"` case-insensitively or, after stripping trailing
whitespace, ends with `"M"`, `"K"` or `"B"` — and when several such runs
occur the LAST matching run's text is kept; `"1.2M views"` matches and
`"Single"` does not. -/
theorem claim_C3_amended (t v : String) (rs : List RunSpec) :
    ∃ song, parse_genre_song (buildSongItem t v rs) = .ok (some song) ∧
      song.views = (rs.filterMap vOf).getLast? ∧
      (∀ txt : String, vOf { text := txt, bid := none } =
        (if _is_view_count txt then some txt else none)) ∧
      vOf { text := "1.2M views", bid := none } = some "1.2M views" ∧
      vOf { text := "Single", bid := none } = none := by
  refine ⟨rs.foldl stepSpec (initSong t v), parse_genre_song_build t v rs, ?_, ?_, ?_, ?_⟩
  · rw [foldl_stepSpec_views rs (initSong t v)]
    unfold lastWins
    cases (rs.filterMap vOf).getLast? <;> rfl
  · intro txt; rfl
  · rfl
  · rfl

/-- C4: for every generated carousel, the section type is the result
type of the first successfully parsed item with `"s"` appended, and it
is `"unknown"` exactly when no item of the carousel parses
successfully. -/
theorem claim_C4_carousel_type (t : String) (specs : List (Option CardSpec)) :
    ∃ sec, parse_carousel_shelf (buildCarouselR t specs) = .ok sec ∧
      sec.type =
        (match sec.items.head? with
         | some (GItem.card c) => c.resultType ++ "s"
         | _ => "unknown") ∧
      (sec.type = "unknown" ↔ ∀ o ∈ specs, o = none) := by
  refine ⟨_, parse_carousel_shelf_build t specs, ?_, ?_⟩
  · show carouselTy "unknown" specs = _
    rw [carouselTy_unknown]
    have hm : (cardsOf specs).head? =
        ((specs.filterMap id).head?).map fun c => GItem.card (cardOf c) := by
      simp [cardsOf, List.head?_map]
    show _ = (match (cardsOf specs).head? with
      | some (GItem.card c) => c.resultType ++ "s"
      | _ => "unknown")
    rw [hm]
    cases (specs.filterMap id).head? with
    | none => rfl
    | some c => rfl
  · show carouselTy "unknown" specs = "unknown" ↔ _
    rw [carouselTy_unknown]
    constructor
    · intro hty
      cases hh : (specs.filterMap id).head? with
      | some c =>
        rw [hh] at hty
        have hty2 : cardResultType c.browseId ++ "s" = "unknown" := hty
        exfalso
        rcases cardResultType_cases c.browseId with h | h | h <;> rw [h] at hty2 <;>
          exact absurd hty2 (by decide)
      | none =>
        have hnil : specs.filterMap id = [] := List.head?_eq_none_iff.mp hh
        intro o ho
        have := (List.filterMap_eq_nil_iff.mp hnil) o ho
        simpa using this
    · intro hall
      have hnil : specs.filterMap id = [] :=
        List.filterMap_eq_nil_iff.mpr fun o ho => by simpa using hall o ho
      rw [hnil]
      rfl

/-- C5: for every generated entity card, `resultType` is derived from
the browse id by prefix in the claimed order: absent browse id gives
`"playlist"`, prefix `"MPRE"` gives `"album"`, prefix `"UC"` gives
`"artist"`, anything else `"playlist"`. -/
theorem claim_C5_result_type (ttl : String) (bid : Option String) :
    ∃ c, parse_two_row_item (buildCardItem ttl bid) = .ok (some c) ∧
      c.resultType =
        (match bid with
         | none => "playlist"
         | some s =>
           if strStarts s "MPRE" then "album"
           else if strStarts s "UC" then "artist"
           else "playlist") := by
  refine ⟨_, parse_two_row_item_build ttl bid, ?_⟩
  cases bid with
  | none => rfl
  | some s =>
    by_cases h : s = ""
    · subst h; rfl
    · simp [cardOf, cardResultType, h]

/-- C6: when the fixed path to the single-column tab's section list
resolves to nothing, `parse_genre_contents` returns the parsed header
(or null) together with all five lists empty. -/
theorem claim_C6_missing_path (response : Json)
    (h : nav response SECTION_LIST_PATH = Json.null) :
    parse_genre_contents response =
      (parse_genre_header response).map fun hd =>
        { header := hd, songs := [], playlists := [], albums := [], artists := [],
          sections := [] } := by
  cases hh : parse_genre_header response with
  | error e => simp [parse_genre_contents, hh, Except.map]
  | ok hd => simp [parse_genre_contents, hh, h, Json.truthy, Except.map]

/-- C6 witness: a concrete document with a basic header and no section
list parses to the header plus empty lists. -/
theorem claim_C6_missing_path_witness :
    nav (Json.obj [("header", Json.obj [("musicHeaderRenderer", titleObj "Moods")])])
      SECTION_LIST_PATH = Json.null ∧
    parse_genre_contents (Json.obj [("header", Json.obj [("musicHeaderRenderer", titleObj "Moods")])]) =
      .ok { header := some (.basic (Json.str "Moods")), songs := [], playlists := [],
            albums := [], artists := [], sections := [] } := by
  refine ⟨rfl, ?_⟩
  rw [claim_C6_missing_path
    (Json.obj [("header", Json.obj [("musicHeaderRenderer", titleObj "Moods")])]) rfl]
  rfl

/-- C7: on a generated category listing, `get_genre` performs a
case-insensitive exact title match iterating categories then items in
listing order, returns exactly `browse_genre` of the first matching
entry's params, and returns null when no title matches. -/
theorem claim_C7_get_genre (send : Json → Json) (l : Listing) (name : String) :
    get_genre send (buildCategories l) name = get_genre_spec send l name := by
  simp only [get_genre, get_genre_spec, buildCategories, pyValues, List.map_map]
  exact getGenreCats_build send name l

/-- The C8 counterexample document: the fixed path resolves to the
number `5`, and `for section in contents` then raises `TypeError` in
Python. -/
def badDoc : Json :=
  Json.obj [("contents", Json.obj [("singleColumnBrowseResultsRenderer", Json.obj [
    ("tabs", Json.arr [Json.obj [("tabRenderer", Json.obj [
      ("content", Json.obj [("sectionListRenderer", Json.obj [
        ("contents", Json.num 5)])])])]])])])]

/-- C8 counterexample: `parse_genre_contents` is not total — on a
document whose section list is a number the Python code raises
`TypeError` when iterating it (modelled as `.error ()`). -/
theorem claim_C8_counterexample :
    parse_genre_contents badDoc = .error () := rfl

/-- C8 (amended): `parse_genre_contents` never fails on documents whose
containers along the traversed paths are dicts and lists of the expected
kinds — every generated document parses successfully, with missing keys
yielding null/empty defaults and sections/items dropped only when their
selector renderer key is absent; totality does not extend to arbitrary
JSON documents. -/
theorem claim_C8_amended (d : DocSpec) :
    ∃ page, parse_genre_contents (buildDoc d) = .ok page :=
  ⟨pageOf d, parse_genre_contents_build d⟩

/-- C9: when a section node carries several renderer keys, exactly one
section is produced and precedence is carousel, then shelf, then grid. -/
theorem claim_C9_dispatch (c s g : Json) (sc ss sg : GenreSection)
    (h1 : parse_carousel_shelf c = .ok sc)
    (h2 : parse_music_shelf s = .ok ss)
    (h3 : parse_grid_renderer g = .ok sg) :
    parse_genre_section (Json.obj [("musicCarouselShelfRenderer", c),
        ("musicShelfRenderer", s), ("gridRenderer", g)]) = .ok (some sc) ∧
    parse_genre_section (Json.obj [("musicShelfRenderer", s), ("gridRenderer", g)]) =
      .ok (some ss) ∧
    parse_genre_section (Json.obj [("gridRenderer", g)]) = .ok (some sg) := by
  refine ⟨?_, ?_, ?_⟩ <;>
    simp [parse_genre_section, pyContains, pyIndexStr, jlookup, h1, h2, h3]

/-- C9 witness: the dispatch precedence evaluated on concrete renderer
payloads. -/
theorem claim_C9_dispatch_witness :
    parse_carousel_shelf (Json.obj []) = .ok { title := Json.null, type := "unknown", items := [] } ∧
    parse_genre_section (Json.obj [("musicCarouselShelfRenderer", Json.obj []),
        ("musicShelfRenderer", Json.obj []), ("gridRenderer", Json.obj [])]) =
      .ok (some { title := Json.null, type := "unknown", items := [] }) := by
  have h1 : parse_carousel_shelf (Json.obj []) =
      .ok { title := Json.null, type := "unknown", items := [] } := rfl
  have h2 : parse_music_shelf (Json.obj []) =
      .ok { title := Json.null, type := "songs", items := [] } := rfl
  have h3 : parse_grid_renderer (Json.obj []) =
      .ok { title := Json.null, type := "playlists", items := [] } := rfl
  exact ⟨h1, (claim_C9_dispatch _ _ _ _ _ _ h1 h2 h3).1⟩

/-- C10: an empty-string browse id behaves exactly like an absent one: a
card with browse id `""` gets `resultType "playlist"`, and a
second-column run carrying browse id `""` is processed identically to a
run with no navigation endpoint, so its text can still be taken as the
view count. -/
theorem claim_C10_empty_browse_id :
    (∀ (song : Song) (t : String),
      scanRun song (buildRun { text := t, bid := some "" }) =
        scanRun song (buildRun { text := t, bid := none })) ∧
    (∃ c, parse_two_row_item (buildCardItem "T" (some "")) = .ok (some c) ∧
      c.resultType = "playlist") ∧
    (∃ song, parse_genre_song (buildSongItem "T" "V" [{ text := "1.2M views", bid := some "" }]) =
      .ok (some song) ∧ song.views = some "1.2M views") := by
  refine ⟨?_, ?_, ?_⟩
  · intro song t
    rw [scanRun_buildRun, scanRun_buildRun]
    rfl
  · exact ⟨_, parse_two_row_item_build "T" (some ""), rfl⟩
  · exact ⟨_, parse_genre_song_build "T" "V" _, rfl⟩

end YTGenre
